import Mathlib

/-!
Verification of the slayground studio-management application core
(`slayground_app/models.py`, `forms.py`, `admin.py`, `views.py`).

Time model: the application stores timezone-consistent datetimes and adds
fixed `timedelta` values to them, so the timeline is embedded as `Int`
minutes on a linear clock; a calendar date is the floor of a datetime to
day granularity (`dateOf`), and `timedelta(weeks = n)` is addition of
`n * 7 * 1440` minutes.  Days are numbered so that 2024-01-01 is day 0
(hence 2024-01-08 is day 7, 2024-01-15 is day 14, 2024-01-22 is day 21).

Database rows are embedded as structures; the table of `ClassSession`
rows is a `List ClassSession`, and the reverse foreign-key sets
(`self.bookings`, `self.registrations`) are passed as explicit lists.
-/

namespace Slayground

/-- Minutes in a day; datetimes are minutes, dates are days. -/
def minutesPerDay : Int := 1440

/-- `datetime.date()`: floor a datetime (minutes) to its calendar date (days). -/
def dateOf (dt : Int) : Int := Int.fdiv dt minutesPerDay

/-- `timedelta(weeks = n)` in minutes. -/
def weeks (n : Nat) : Int := (n : Int) * 7 * minutesPerDay

/-- Booking / EventRegistration `status` choices (`models.py`). -/
inductive Status where
  | PENDING
  | CONFIRMED
  | CANCELLED
  | REFUNDED
deriving DecidableEq

/-- `ClassSession` row (`models.py` lines 74-198).  Foreign keys are ids;
`recurrence_skips` is the raw JSON list, each entry either a date that the
`strptime` call in `_skip_set` accepts (`some d`) or a malformed entry that
raises `ValueError` and is ignored (`none`). -/
structure ClassSession where
  class_type : Nat
  instructor : Option Nat
  location : Option Nat
  start_datetime : Int
  end_datetime : Int
  capacity : Nat
  price_cents : Nat
  is_published : Bool
  notes : String
  recurrence_enabled : Bool
  recurrence_every_n_weeks : Nat
  recurrence_until : Option Int
  recurrence_skips : List (Option Int)
deriving DecidableEq

/-- `Booking` row restricted to the fields the capacity logic reads
(`models.py` lines 202-245); an element of some session `bookings` set. -/
structure Booking where
  quantity : Nat
  status : Status
deriving DecidableEq

/-- The `aggregate(s = Sum("quantity"))["s"] or 0` over the bookings with
`status = "CONFIRMED"` inside `ClassSession.spots_left` (`models.py` 117-119). -/
def confirmedQuantitySum (bs : List Booking) : Nat :=
  ((bs.filter (fun b => b.status == Status.CONFIRMED)).map Booking.quantity).sum

/-- `ClassSession.spots_left` (`models.py` 115-120):
`max(self.capacity - confirmed, 0)` over this session bookings. -/
def ClassSession.spots_left (s : ClassSession) (bs : List Booking) : Int :=
  max ((s.capacity : Int) - (confirmedQuantitySum bs : Int)) 0

/-- `ClassSession.can_accept` (`models.py` 126-127):
`qty > 0 and self.spots_left >= qty`. -/
def ClassSession.can_accept (s : ClassSession) (bs : List Booking) (qty : Int) : Bool :=
  decide (0 < qty) && decide (qty ≤ s.spots_left bs)

/-- `Event.event_type` choices (`models.py` 303-306). -/
inductive EventType where
  | PRIVATE
  | PUBLIC
deriving DecidableEq

/-- `Event` row restricted to the fields the registration logic reads
(`models.py` 302-351); `start_datetime` is nullable. -/
structure Event where
  event_type : EventType
  start_datetime : Option Int
  end_datetime : Option Int
  capacity : Nat
  is_published : Bool
deriving DecidableEq

/-- `EventRegistration` row restricted to the capacity-relevant fields
(`models.py` 393-427). -/
structure EventRegistration where
  quantity : Nat
  status : Status
deriving DecidableEq

/-- `Event.is_public` (`models.py` 333-335). -/
def Event.is_public (e : Event) : Bool := e.event_type == EventType.PUBLIC

/-- The confirmed-quantity aggregate inside `Event.spots_left` (`models.py` 345). -/
def confirmedRegSum (rs : List EventRegistration) : Nat :=
  ((rs.filter (fun r => r.status == Status.CONFIRMED)).map EventRegistration.quantity).sum

/-- `Event.spots_left` (`models.py` 341-346): `None` when `capacity <= 0`
or the event is not public, else `max(capacity - confirmed, 0)`. -/
def Event.spots_left (e : Event) (rs : List EventRegistration) : Option Int :=
  if e.capacity ≤ 0 || !e.is_public then none
  else some (max ((e.capacity : Int) - (confirmedRegSum rs : Int)) 0)

/-- `Event.can_accept` (`models.py` 348-351): unlimited kinds always admit,
else `qty > 0 and (self.spots_left or 0) >= qty`. -/
def Event.can_accept (e : Event) (rs : List EventRegistration) (qty : Int) : Bool :=
  if !e.is_public || e.capacity ≤ 0 then true
  else decide (0 < qty) && decide (qty ≤ (e.spots_left rs).getD 0)

/-- One step of the `while` loop cursor: `cursor + timedelta(weeks = self.recurrence_every_n_weeks)`
(`models.py` 165). -/
def stepCursor (seed : ClassSession) (cursor : Int) : Int :=
  cursor + weeks seed.recurrence_every_n_weeks

/-- The `ClassSession.objects.filter(class_type = ..., start_datetime = ...).exists()`
duplicate check (`models.py` 176-179, `admin.py` 130-133). -/
def sessionExists (store : List ClassSession) (ct : Nat) (startDt : Int) : Bool :=
  store.any (fun s => s.class_type == ct && s.start_datetime == startDt)

/-- The `ClassSession.objects.create(...)` call of the generators
(`models.py` 185-195, `admin.py` 138-148): every non-schedule field copied
from the seed, recurrence fields left at their model defaults. -/
def mkOccurrence (seed : ClassSession) (startDt endDt : Int) : ClassSession :=
  ⟨seed.class_type, seed.instructor, seed.location, startDt, endDt, seed.capacity,
    seed.price_cents, seed.is_published, seed.notes, false, 1, none, []⟩

/-- `ClassSession._skip_set` (`models.py` 130-141): the parseable skip
entries; malformed ones (`none`) are dropped. -/
def skipSetOf (s : ClassSession) : List Int :=
  s.recurrence_skips.filterMap id

/-- Return value of `ClassSession.generate_recurrences`:
`{"created": ..., "skipped": ..., "reason": ...}`. -/
structure GenOutcome where
  created : Nat
  skipped : Nat
  reason : String
deriving DecidableEq

/-- The `while True` loop of `ClassSession.generate_recurrences`
(`models.py` 163-196), fuel-bounded: `none` means the fuel ran out before
the loop reached its `break`, so the Python loop runs for more than `fuel`
iterations.  State threaded: cursor, `created`, `skipped`, and the
`ClassSession` table (grown by the `create` calls when not `dryRun`). -/
def genLoop (seed : ClassSession) (endDate : Int) (duration : Int) (skipSet : List Int)
    (dryRun : Bool) :
    Nat → Int → Nat → Nat → List ClassSession → Option (Nat × Nat × List ClassSession)
  | 0, _, _, _, _ => none
  | fuel + 1, cursor, created, skipped, store =>
    if endDate < dateOf (stepCursor seed cursor) then
      some (created, skipped, store)
    else if skipSet.contains (dateOf (stepCursor seed cursor)) then
      genLoop seed endDate duration skipSet dryRun fuel
        (stepCursor seed cursor) created (skipped + 1) store
    else if sessionExists store seed.class_type (stepCursor seed cursor) then
      genLoop seed endDate duration skipSet dryRun fuel
        (stepCursor seed cursor) created (skipped + 1) store
    else if dryRun then
      genLoop seed endDate duration skipSet dryRun fuel
        (stepCursor seed cursor) (created + 1) skipped store
    else
      genLoop seed endDate duration skipSet dryRun fuel
        (stepCursor seed cursor) (created + 1) skipped
        (store ++ [mkOccurrence seed (stepCursor seed cursor) (stepCursor seed cursor + duration)])

/-- `end_date = self.recurrence_until or (self.start_datetime.date() + timedelta(weeks = default_weeks))`
(`models.py` 152); a `date` object is always truthy, so this is `getD`. -/
def resolvedEnd (seed : ClassSession) (default_weeks : Nat) : Int :=
  seed.recurrence_until.getD (dateOf seed.start_datetime + 7 * (default_weeks : Int))

/-- `ClassSession.generate_recurrences` (`models.py` 143-198) against a
table `store` of existing sessions.  The loop is fuel-bounded: `some`
carries the returned dict together with the final table, `none` means the
Python loop did not terminate within `fuel` iterations. -/
def generate_recurrences (seed : ClassSession) (store : List ClassSession)
    (default_weeks : Nat) (dry_run : Bool) (fuel : Nat) :
    Option (GenOutcome × List ClassSession) :=
  if !seed.recurrence_enabled then some (⟨0, 0, "disabled"⟩, store)
  else if resolvedEnd seed default_weeks < dateOf seed.start_datetime then
    some (⟨0, 0, "empty-range"⟩, store)
  else
    match genLoop seed (resolvedEnd seed default_weeks)
        (seed.end_datetime - seed.start_datetime) (skipSetOf seed)
        dry_run fuel seed.start_datetime 0 0 store with
    | none => none
    | some (c, s, store2) => some (⟨c, s, "ok"⟩, store2)

/-- Inner `for i in range(1, occurrences + 1)` loop of
`ClassSessionAdmin.generate_repeats` (`admin.py` 123-149), iterated over
the list of indices, threading `created`, `skipped` and the table. -/
def repeatLoop (seed : ClassSession) (interval : Nat) (skipSet : List Int) :
    List Nat → Nat → Nat → List ClassSession → Nat × Nat × List ClassSession
  | [], created, skipped, store => (created, skipped, store)
  | i :: rest, created, skipped, store =>
    if skipSet.contains (dateOf (seed.start_datetime + weeks (interval * i))) then
      repeatLoop seed interval skipSet rest created (skipped + 1) store
    else if sessionExists store seed.class_type (seed.start_datetime + weeks (interval * i)) then
      repeatLoop seed interval skipSet rest created (skipped + 1) store
    else
      repeatLoop seed interval skipSet rest (created + 1) skipped
        (store ++ [mkOccurrence seed (seed.start_datetime + weeks (interval * i))
          (seed.start_datetime + weeks (interval * i) + (seed.end_datetime - seed.start_datetime))])

/-- Outer `for seed in queryset` loop of `ClassSessionAdmin.generate_repeats`
(`admin.py` 121-149): the batch variant with a fixed occurrence count, a
caller-supplied interval and a global skip set, aggregating counts. -/
def generate_repeats (occurrences interval : Nat) (skipSet : List Int) :
    List ClassSession → Nat → Nat → List ClassSession → Nat × Nat × List ClassSession
  | [], created, skipped, store => (created, skipped, store)
  | seed :: rest, created, skipped, store =>
    match repeatLoop seed interval skipSet ((List.range occurrences).map (fun j => j + 1))
        created skipped store with
    | (c, s, store2) => generate_repeats occurrences interval skipSet rest c s store2

/-- The `every_n_weeks` and `occurrences` fields of
`RepeatSessionsActionForm` (`admin.py` 49-57) both carry `min_value = 1`:
the admin batch action only runs when this predicate holds. -/
def repeatActionFormValid (occurrences every_n_weeks : Int) : Bool :=
  decide (1 ≤ occurrences) && decide (1 ≤ every_n_weeks)

/-- Errors a form `clean` can produce: a `ValidationError` raised by
`clean`, or a field error attached by `add_error`. -/
inductive FormOutcome where
  | ok
  | rejected (msg : String)
deriving DecidableEq

/-- `BookingCreateForm.clean` (`forms.py` 36-52): missing session and past
session raise; a failed capacity check attaches a field error.  `quantity`
is `cleaned.get("quantity") or 1`, so a missing or falsy value becomes 1. -/
def bookingCreateFormClean (session : Option ClassSession) (bookings : List Booking)
    (now : Int) (quantity : Option Int) : FormOutcome :=
  match session with
  | none => .rejected "No class session selected."
  | some s =>
    if s.start_datetime < now then .rejected "This class has already started or finished."
    else
      match quantity with
      | none => if s.can_accept bookings 1 then .ok else .rejected "capacity"
      | some q =>
        if (if q == 0 then s.can_accept bookings 1 else s.can_accept bookings q) then .ok
        else .rejected "capacity"

/-- `EventRegistrationForm.clean` (`forms.py` 160-169): missing or
non-public event raises, a past start raises (only when `start_datetime`
is set), a failed capacity check attaches a field error. -/
def eventRegistrationFormClean (event : Option Event) (regs : List EventRegistration)
    (now : Int) (quantity : Option Int) : FormOutcome :=
  match event with
  | none => .rejected "Invalid event."
  | some e =>
    if !e.is_public then .rejected "Invalid event."
    else if (match e.start_datetime with | some st => decide (st < now) | none => false) then
      .rejected "This event has already started or finished."
    else
      match quantity with
      | none => if e.can_accept regs 1 then .ok else .rejected "capacity"
      | some q =>
        if (if q == 0 then e.can_accept regs 1 else e.can_accept regs q) then .ok
        else .rejected "capacity"

/-- A GET range parameter of the calendar feed: absent (`none`), or
present with the result of `datetime.fromisoformat` on it — `some (some t)`
when it parses to the timestamp `t`, `some none` when parsing raises
`ValueError`. -/
abbrev RangeParam := Option (Option Int)

/-- `calendar_events` (`views.py` 174-219), as the list of sessions
serialized into the JSON feed.  The future-only filter applies only when
neither parameter is present; the `try` block applies the start filter,
then the end filter, and a `ValueError` abandons whatever filters remain
while keeping the ones already applied. -/
def calendar_events (store : List ClassSession) (now : Int)
    (startParam endParam : RangeParam) : List ClassSession :=
  let qs := store.filter (fun s => s.is_published)
  let qs := if startParam.isNone && endParam.isNone then
      qs.filter (fun s => decide (now ≤ s.start_datetime)) else qs
  let qs := match startParam, endParam with
    | some none, _ => qs
    | some (some t1), some none => qs.filter (fun s => decide (t1 ≤ s.start_datetime))
    | some (some t1), some (some t2) =>
      (qs.filter (fun s => decide (t1 ≤ s.start_datetime))).filter
        (fun s => decide (s.start_datetime ≤ t2))
    | some (some t1), none => qs.filter (fun s => decide (t1 ≤ s.start_datetime))
    | none, some (some t2) => qs.filter (fun s => decide (s.start_datetime ≤ t2))
    | none, some none => qs
    | none, none => qs
  List.insertionSort (fun a b => a.start_datetime ≤ b.start_datetime) qs

/-- Modelled from the spec (data-model section): the committed total the
spec claims the capacity computation uses, the sum of `quantity` over the
reservations whose status is PENDING or CONFIRMED.  Kept separate from the
source-side `confirmedQuantitySum` to compare the two. -/
def pendingOrConfirmedSum (bs : List Booking) : Nat :=
  ((bs.filter (fun b => b.status == Status.PENDING || b.status == Status.CONFIRMED)).map
    Booking.quantity).sum

/-! ## Lemmas about the projection loop -/

theorem sessionExists_append (store : List ClassSession) (o : ClassSession) (ct : Nat)
    (x : Int) :
    sessionExists (store ++ [o]) ct x =
      (sessionExists store ct x || (o.class_type == ct && o.start_datetime == x)) := by
  simp [sessionExists, List.any_append]

/-- The loop only ever appends rows: any `(class_type, start)` pair present
in the incoming table is still present in the final table. -/
theorem genLoop_mono (seed : ClassSession) (endDate duration : Int) (skipSet : List Int)
    (dryRun : Bool) (fuel : Nat) :
    ∀ (cursor : Int) (created skipped : Nat) (store : List ClassSession)
      (C S : Nat) (st : List ClassSession),
      genLoop seed endDate duration skipSet dryRun fuel cursor created skipped store =
        some (C, S, st) →
      ∀ (ct : Nat) (x : Int), sessionExists store ct x = true → sessionExists st ct x = true := by
  induction fuel with
  | zero =>
    intro cursor c s store C S st h
    simp [genLoop] at h
  | succ n ih =>
    intro cursor c s store C S st h ct x hx
    rw [genLoop] at h
    split at h
    · obtain ⟨rfl, rfl, rfl⟩ : c = C ∧ s = S ∧ store = st := by
        simpa using h
      exact hx
    · split at h
      · exact ih _ _ _ _ _ _ _ h ct x hx
      · split at h
        · exact ih _ _ _ _ _ _ _ h ct x hx
        · split at h
          · exact ih _ _ _ _ _ _ _ h ct x hx
          · refine ih _ _ _ _ _ _ _ h ct x ?_
            rw [sessionExists_append, hx]
            rfl

/-- Running the loop with accumulators `created`, `skipped` shifts the
counts of the run started at zero. -/
theorem genLoop_shift (seed : ClassSession) (endDate duration : Int) (skipSet : List Int)
    (dryRun : Bool) (fuel : Nat) :
    ∀ (cursor : Int) (created skipped : Nat) (store : List ClassSession),
      genLoop seed endDate duration skipSet dryRun fuel cursor created skipped store =
        (genLoop seed endDate duration skipSet dryRun fuel cursor 0 0 store).map
          (fun r => (created + r.1, skipped + r.2.1, r.2.2)) := by
  induction fuel with
  | zero =>
    intro cursor c s store
    simp [genLoop]
  | succ n ih =>
    intro cursor c s store
    rw [genLoop, genLoop]
    split
    · simp
    · split
      · rw [ih _ c (s + 1) store, ih _ 0 (0 + 1) store]
        cases genLoop seed endDate duration skipSet dryRun n
            (stepCursor seed cursor) 0 0 store with
        | none => rfl
        | some r => simp; omega
      · split
        · rw [ih _ c (s + 1) store, ih _ 0 (0 + 1) store]
          cases genLoop seed endDate duration skipSet dryRun n
              (stepCursor seed cursor) 0 0 store with
          | none => rfl
          | some r => simp; omega
        · split
          · rw [ih _ (c + 1) s store, ih _ (0 + 1) 0 store]
            cases genLoop seed endDate duration skipSet dryRun n
                (stepCursor seed cursor) 0 0 store with
            | none => rfl
            | some r => simp; omega
          · rw [ih _ (c + 1) s _, ih _ (0 + 1) 0 _]
            cases genLoop seed endDate duration skipSet dryRun n
                (stepCursor seed cursor) 0 0
                (store ++ [mkOccurrence seed (stepCursor seed cursor)
                  (stepCursor seed cursor + duration)]) with
            | none => rfl
            | some r => simp; omega

/-- A created occurrence collides with its own cursor position in any
later existence check. -/
theorem sessionExists_mkOccurrence (store : List ClassSession) (seed : ClassSession)
    (startDt endDt : Int) :
    sessionExists (store ++ [mkOccurrence seed startDt endDt]) seed.class_type startDt =
      true := by
  rw [sessionExists_append]
  simp [mkOccurrence]

/-- Re-running the loop (not a dry run) over its own final table creates
nothing: every position either skips as before or hits the duplicate
check, so the second run reports `0` created and `S + C` skipped. -/
theorem genLoop_idem (seed : ClassSession) (endDate duration : Int) (skipSet : List Int)
    (fuel : Nat) :
    ∀ (cursor : Int) (store : List ClassSession) (C S : Nat) (st : List ClassSession),
      genLoop seed endDate duration skipSet false fuel cursor 0 0 store = some (C, S, st) →
      genLoop seed endDate duration skipSet false fuel cursor 0 0 st = some (0, S + C, st) := by
  induction fuel with
  | zero =>
    intro cursor store C S st h
    simp [genLoop] at h
  | succ n ih =>
    intro cursor store C S st h
    rw [genLoop] at h ⊢
    by_cases hbreak : endDate < dateOf (stepCursor seed cursor)
    · rw [if_pos hbreak] at h ⊢
      obtain ⟨rfl, rfl, rfl⟩ : 0 = C ∧ 0 = S ∧ store = st := by
        simpa using h
      rfl
    · rw [if_neg hbreak] at h ⊢
      by_cases hskip : skipSet.contains (dateOf (stepCursor seed cursor))
      · rw [if_pos hskip] at h ⊢
        rw [genLoop_shift] at h
        rcases hb : genLoop seed endDate duration skipSet false n
            (stepCursor seed cursor) 0 0 store with _ | ⟨C2, S2, st2⟩
        · rw [hb] at h
          simp at h
        · rw [hb] at h
          obtain ⟨rfl, rfl, rfl⟩ : 0 + C2 = C ∧ 1 + S2 = S ∧ st2 = st := by
            simpa using h
          rw [genLoop_shift, ih _ _ _ _ _ hb]
          simp
          omega
      · rw [if_neg hskip] at h ⊢
        by_cases hex : sessionExists store seed.class_type (stepCursor seed cursor) = true
        · rw [if_pos hex] at h
          rw [genLoop_shift] at h
          rcases hb : genLoop seed endDate duration skipSet false n
              (stepCursor seed cursor) 0 0 store with _ | ⟨C2, S2, st2⟩
          · rw [hb] at h
            simp at h
          · rw [hb] at h
            obtain ⟨rfl, rfl, rfl⟩ : 0 + C2 = C ∧ 1 + S2 = S ∧ st2 = st := by
              simpa using h
            have hex2 : sessionExists st2 seed.class_type (stepCursor seed cursor) = true :=
              genLoop_mono seed endDate duration skipSet false n _ _ _ _ _ _ _ hb _ _ hex
            rw [if_pos hex2, genLoop_shift, ih _ _ _ _ _ hb]
            simp
            omega
        · rw [if_neg hex] at h
          simp only [Bool.false_eq_true, if_false] at h
          rw [genLoop_shift] at h
          rcases hb : genLoop seed endDate duration skipSet false n
              (stepCursor seed cursor) 0 0
              (store ++ [mkOccurrence seed (stepCursor seed cursor)
                (stepCursor seed cursor + duration)]) with _ | ⟨C2, S2, st2⟩
          · rw [hb] at h
            simp at h
          · rw [hb] at h
            obtain ⟨rfl, rfl, rfl⟩ : 1 + C2 = C ∧ 0 + S2 = S ∧ st2 = st := by
              simpa using h
            have hex2 : sessionExists st2 seed.class_type (stepCursor seed cursor) = true :=
              genLoop_mono seed endDate duration skipSet false n _ _ _ _ _ _ _ hb _ _
                (sessionExists_mkOccurrence store seed _ _)
            rw [if_pos hex2, genLoop_shift, ih _ _ _ _ _ hb]
            simp
            omega

/-- Every row the horizon-bounded loop adds to the table keeps the seed
duration. -/
theorem genLoop_duration (seed : ClassSession) (endDate : Int) (skipSet : List Int)
    (dryRun : Bool) (fuel : Nat) :
    ∀ (cursor : Int) (created skipped : Nat) (store : List ClassSession)
      (C S : Nat) (st : List ClassSession),
      genLoop seed endDate (seed.end_datetime - seed.start_datetime) skipSet dryRun fuel
        cursor created skipped store = some (C, S, st) →
      ∀ x ∈ st, x ∈ store ∨
        x.end_datetime - x.start_datetime = seed.end_datetime - seed.start_datetime := by
  induction fuel with
  | zero =>
    intro cursor c s store C S st h
    simp [genLoop] at h
  | succ n ih =>
    intro cursor c s store C S st h x hx
    rw [genLoop] at h
    split at h
    · obtain ⟨rfl, rfl, rfl⟩ : c = C ∧ s = S ∧ store = st := by
        simpa using h
      exact Or.inl hx
    · split at h
      · exact ih _ _ _ _ _ _ _ h x hx
      · split at h
        · exact ih _ _ _ _ _ _ _ h x hx
        · split at h
          · exact ih _ _ _ _ _ _ _ h x hx
          · rcases ih _ _ _ _ _ _ _ h x hx with hmem | hdur
            · rcases List.mem_append.mp hmem with hmem2 | hocc
              · exact Or.inl hmem2
              · right
                obtain rfl : x = mkOccurrence seed (stepCursor seed cursor)
                    (stepCursor seed cursor + (seed.end_datetime - seed.start_datetime)) := by
                  simpa using hocc
                simp [mkOccurrence]
            · exact Or.inr hdur

/-- Every row the fixed-count inner loop of the batch action adds to the
table keeps the seed duration. -/
theorem repeatLoop_duration (seed : ClassSession) (interval : Nat) (skipSet : List Int) :
    ∀ (idxs : List Nat) (created skipped : Nat) (store : List ClassSession)
      (C S : Nat) (st : List ClassSession),
      repeatLoop seed interval skipSet idxs created skipped store = (C, S, st) →
      ∀ x ∈ st, x ∈ store ∨
        x.end_datetime - x.start_datetime = seed.end_datetime - seed.start_datetime := by
  intro idxs
  induction idxs with
  | nil =>
    intro c s store C S st h x hx
    obtain ⟨rfl, rfl, rfl⟩ : c = C ∧ s = S ∧ store = st := by
      simpa [repeatLoop] using h
    exact Or.inl hx
  | cons i rest ih =>
    intro c s store C S st h x hx
    rw [repeatLoop] at h
    split at h
    · exact ih _ _ _ _ _ _ h x hx
    · split at h
      · exact ih _ _ _ _ _ _ h x hx
      · rcases ih _ _ _ _ _ _ h x hx with hmem | hdur
        · rcases List.mem_append.mp hmem with hmem2 | hocc
          · exact Or.inl hmem2
          · right
            obtain rfl : x = mkOccurrence seed (seed.start_datetime + weeks (interval * i))
                (seed.start_datetime + weeks (interval * i) +
                  (seed.end_datetime - seed.start_datetime)) := by
              simpa using hocc
            simp [mkOccurrence]
        · exact Or.inr hdur

/-- Every row the batch action adds to the table keeps the duration of one
of the selected seeds. -/
theorem generate_repeats_duration (occurrences interval : Nat) (skipSet : List Int) :
    ∀ (seeds : List ClassSession) (created skipped : Nat) (store : List ClassSession)
      (C S : Nat) (st : List ClassSession),
      generate_repeats occurrences interval skipSet seeds created skipped store = (C, S, st) →
      ∀ x ∈ st, x ∈ store ∨ ∃ seed ∈ seeds,
        x.end_datetime - x.start_datetime = seed.end_datetime - seed.start_datetime := by
  intro seeds
  induction seeds with
  | nil =>
    intro c s store C S st h x hx
    obtain ⟨rfl, rfl, rfl⟩ : c = C ∧ s = S ∧ store = st := by
      simpa [generate_repeats] using h
    exact Or.inl hx
  | cons seed rest ih =>
    intro c s store C S st h x hx
    rw [generate_repeats] at h
    rcases hr : repeatLoop seed interval skipSet
        ((List.range occurrences).map (fun j => j + 1)) c s store with ⟨c1, s1, st1⟩
    rw [hr] at h
    rcases ih _ _ _ _ _ _ h x hx with hmem | ⟨sd, hsd, hdur⟩
    · rcases repeatLoop_duration seed interval skipSet _ _ _ _ _ _ _ hr x hmem with
        hmem2 | hdur
      · exact Or.inl hmem2
      · exact Or.inr ⟨seed, List.mem_cons_self seed rest, hdur⟩
    · exact Or.inr ⟨sd, List.mem_cons_of_mem seed hsd, hdur⟩

/-! ## Theorems -/

/-- C1: for every `ClassSession` slot and every integer quantity `q`,
`can_accept q` returns true iff `q >= 1` and `spots_left >= q`, where
`spots_left = max(capacity - S, 0)` and `S` sums `quantity` over this slot
bookings whose status is CONFIRMED. -/
theorem C1_can_accept_iff (s : ClassSession) (bs : List Booking) (q : Int) :
    s.can_accept bs q = true ↔
      1 ≤ q ∧ max ((s.capacity : Int) - (confirmedQuantitySum bs : Int)) 0 ≥ q := by
  simp only [ClassSession.can_accept, ClassSession.spots_left, Bool.and_eq_true,
    decide_eq_true_eq, ge_iff_le]
  omega

/-- Seed of the worked example: start 2024-01-01 00:00 (minute 0), end
01:00 (minute 60), weekly recurrence, until 2024-01-22 (day 21), skipping
2024-01-08 (day 7). -/
def seedC2 : ClassSession :=
  ⟨1, some 1, none, 0, 60, 20, 0, true, "", true, 1, some 21, [some 7]⟩

/-- C2: on the seed of the worked example, run against a store holding
only the seed itself, `generate_recurrences` creates exactly the two
occurrences starting 2024-01-15 (minute 20160, day 14) and 2024-01-22
(minute 30240, day 21), and returns created = 2, skipped = 1, outcome ok. -/
theorem C2_example_projection :
    generate_recurrences seedC2 [seedC2] 12 false 10 =
      some (⟨2, 1, "ok"⟩,
        [seedC2, mkOccurrence seedC2 20160 20220, mkOccurrence seedC2 30240 30300]) ∧
    dateOf 20160 = 14 ∧ dateOf 30240 = 21 := by
  decide

/-- C3: projection is idempotent.  For every seed and initial store, if a
(non-dry) run of `generate_recurrences` terminates with outcome `r1` and
final table `st1`, re-running it with identical parameters on `st1`
creates 0 rows, skips every previously skipped position plus every row the
first run created (caught by the same-series same-start existence check),
and leaves the table unchanged. -/
theorem C3_idempotent (seed : ClassSession) (store : List ClassSession) (dw fuel : Nat)
    (r1 : GenOutcome) (st1 : List ClassSession)
    (h : generate_recurrences seed store dw false fuel = some (r1, st1)) :
    generate_recurrences seed st1 dw false fuel =
      some (⟨0, r1.skipped + r1.created, r1.reason⟩, st1) := by
  unfold generate_recurrences at h ⊢
  by_cases hen : (!seed.recurrence_enabled) = true
  · rw [if_pos hen] at h ⊢
    obtain ⟨rfl, rfl⟩ : GenOutcome.mk 0 0 "disabled" = r1 ∧ store = st1 := by
      simpa using h
    rfl
  · rw [if_neg hen] at h ⊢
    by_cases hrange : resolvedEnd seed dw < dateOf seed.start_datetime
    · rw [if_pos hrange] at h ⊢
      obtain ⟨rfl, rfl⟩ : GenOutcome.mk 0 0 "empty-range" = r1 ∧ store = st1 := by
        simpa using h
      rfl
    · rw [if_neg hrange] at h ⊢
      rcases hb : genLoop seed (resolvedEnd seed dw)
          (seed.end_datetime - seed.start_datetime) (skipSetOf seed) false fuel
          seed.start_datetime 0 0 store with _ | ⟨C, S, st2⟩
      · rw [hb] at h
        simp at h
      · rw [hb] at h
        obtain ⟨rfl, rfl⟩ : GenOutcome.mk C S "ok" = r1 ∧ st2 = st1 := by
          simpa using h
        rw [genLoop_idem seed _ _ _ fuel _ _ _ _ _ hb]

/-- Witness for C3: the worked example run a second time over its own
output reports 0 created and 3 skipped (the original skip date plus the
two created occurrences). -/
theorem C3_idempotent_witness :
    generate_recurrences seedC2
        [seedC2, mkOccurrence seedC2 20160 20220, mkOccurrence seedC2 30240 30300]
        12 false 10 =
      some (⟨0, 1 + 2, "ok"⟩,
        [seedC2, mkOccurrence seedC2 20160 20220, mkOccurrence seedC2 30240 30300]) :=
  C3_idempotent seedC2 [seedC2] 12 10 ⟨2, 1, "ok"⟩
    [seedC2, mkOccurrence seedC2 20160 20220, mkOccurrence seedC2 30240 30300]
    (by decide)

/-- C4 counterexample: a capacity-10 session with a single PENDING booking
of quantity 5.  The code computes `spots_left = 10` (PENDING does not
count), while the claimed committed total (sum over PENDING or CONFIRMED)
would give `max(10 - 5, 0) = 5`. -/
theorem C4_counterexample :
    ClassSession.spots_left ⟨1, none, none, 0, 60, 10, 0, true, "", false, 1, none, []⟩
        [⟨5, Status.PENDING⟩] ≠
      max ((10 : Int) - (pendingOrConfirmedSum [⟨5, Status.PENDING⟩] : Int)) 0 := by
  decide

/-- C4 amended: only CONFIRMED reservations count against capacity — a
reservation whose status is not CONFIRMED (PENDING, CANCELLED or REFUNDED)
never affects `spots_left`, for class sessions and events alike, while a
CONFIRMED reservation adds its quantity to the committed total. -/
theorem C4_only_confirmed_counts :
    (∀ (s : ClassSession) (bs : List Booking) (b : Booking),
        b.status ≠ Status.CONFIRMED → s.spots_left (b :: bs) = s.spots_left bs)
    ∧ (∀ (e : Event) (rs : List EventRegistration) (r : EventRegistration),
        r.status ≠ Status.CONFIRMED → e.spots_left (r :: rs) = e.spots_left rs)
    ∧ (∀ (bs : List Booking) (b : Booking),
        b.status = Status.CONFIRMED →
          confirmedQuantitySum (b :: bs) = b.quantity + confirmedQuantitySum bs) := by
  refine ⟨fun s bs b hb => ?_, fun e rs r hr => ?_, fun bs b hb => ?_⟩
  · have hb2 : (b.status == Status.CONFIRMED) = false := by
      simpa using hb
    simp [ClassSession.spots_left, confirmedQuantitySum, List.filter_cons, hb2]
  · have hr2 : (r.status == Status.CONFIRMED) = false := by
      simpa using hr
    simp [Event.spots_left, confirmedRegSum, List.filter_cons, hr2]
  · have hb2 : (b.status == Status.CONFIRMED) = true := by
      simpa using hb
    simp [confirmedQuantitySum, List.filter_cons, hb2]

/-- Witness for C4 amended at concrete inputs. -/
theorem C4_only_confirmed_counts_witness :
    ClassSession.spots_left ⟨1, none, none, 0, 60, 10, 0, true, "", false, 1, none, []⟩
        [⟨5, Status.PENDING⟩] =
      ClassSession.spots_left ⟨1, none, none, 0, 60, 10, 0, true, "", false, 1, none, []⟩ [] ∧
    Event.spots_left ⟨EventType.PUBLIC, some 0, some 60, 10, true⟩ [⟨5, Status.CANCELLED⟩] =
      Event.spots_left ⟨EventType.PUBLIC, some 0, some 60, 10, true⟩ [] ∧
    confirmedQuantitySum [⟨5, Status.CONFIRMED⟩] = 5 + confirmedQuantitySum [] :=
  ⟨C4_only_confirmed_counts.1 ⟨1, none, none, 0, 60, 10, 0, true, "", false, 1, none, []⟩ []
      ⟨5, Status.PENDING⟩ (by decide),
    C4_only_confirmed_counts.2.1 ⟨EventType.PUBLIC, some 0, some 60, 10, true⟩ []
      ⟨5, Status.CANCELLED⟩ (by decide),
    C4_only_confirmed_counts.2.2 [] ⟨5, Status.CONFIRMED⟩ (by decide)⟩

/-- C6 counterexample: a published slot that starts in the past (minute
-10000, now = 0).  A request whose `start` parameter is present but
malformed returns this past slot: the feed does not fall back to the
future-only filter (that filter only applies when neither range parameter
is present), so the response is not "exactly the published slots with
start >= now". -/
theorem C6_counterexample :
    calendar_events [⟨1, none, none, -10000, -9940, 20, 0, true, "", false, 1, none, []⟩]
        0 (some none) none =
      [⟨1, none, none, -10000, -9940, 20, 0, true, "", false, 1, none, []⟩] ∧
    (⟨1, none, none, -10000, -9940, 20, 0, true, "", false, 1, none, []⟩ :
        ClassSession).start_datetime < 0 ∧
    (⟨1, none, none, -10000, -9940, 20, 0, true, "", false, 1, none, []⟩ :
        ClassSession).is_published = true := by
  decide

/-- C6 amended: malformed range parameters are ignored without an error
response, but the future-only default is not restored: a malformed `start`
drops every range filter (all published slots are returned, for any `end`
parameter), a malformed `end` with no `start` likewise, and a malformed
`end` after a parseable `start` keeps only the already-applied start
filter. -/
theorem C6_malformed_range_fallback :
    (∀ (store : List ClassSession) (now : Int) (ep : RangeParam),
        calendar_events store now (some none) ep =
          List.insertionSort (fun a b => a.start_datetime ≤ b.start_datetime)
            (store.filter (fun s => s.is_published)))
    ∧ (∀ (store : List ClassSession) (now : Int),
        calendar_events store now none (some none) =
          List.insertionSort (fun a b => a.start_datetime ≤ b.start_datetime)
            (store.filter (fun s => s.is_published)))
    ∧ (∀ (store : List ClassSession) (now : Int) (t : Int),
        calendar_events store now (some (some t)) (some none) =
          List.insertionSort (fun a b => a.start_datetime ≤ b.start_datetime)
            ((store.filter (fun s => s.is_published)).filter
              (fun s => decide (t ≤ s.start_datetime)))) := by
  refine ⟨fun store now ep => ?_, fun store now => rfl, fun store now t => rfl⟩
  cases ep <;> rfl

/-- With a zero-week interval the cursor never advances, so as long as its
date has not passed the horizon the loop consumes every amount of fuel
without reaching `break`: the Python `while` loop never terminates. -/
theorem genLoop_zero_interval_stuck (seed : ClassSession) (endDate duration : Int)
    (skipSet : List Int) (dryRun : Bool) (hzero : seed.recurrence_every_n_weeks = 0)
    (fuel : Nat) :
    ∀ (cursor : Int) (created skipped : Nat) (store : List ClassSession),
      dateOf cursor ≤ endDate →
      genLoop seed endDate duration skipSet dryRun fuel cursor created skipped store =
        none := by
  have hstep : ∀ cursor : Int, stepCursor seed cursor = cursor := by
    intro cursor
    simp [stepCursor, hzero, weeks]
  induction fuel with
  | zero =>
    intro cursor c s store hle
    rfl
  | succ n ih =>
    intro cursor c s store hle
    rw [genLoop, hstep]
    rw [if_neg (by omega)]
    split
    · exact ih cursor c (s + 1) store hle
    · split
      · exact ih cursor c (s + 1) store hle
      · split
        · exact ih cursor (c + 1) s store hle
        · exact ih cursor (c + 1) s _ hle

/-- C5 (against the code): a seed whose `recurrence_every_n_weeks` field
is 0 (which the `PositiveIntegerField` admits) is neither rejected nor
clamped by `generate_recurrences` — the loop is entered and, for every
fuel bound and every store, the run fails to terminate.  The concrete seed
is the worked-example seed with a zero interval. -/
theorem C5_zero_interval_loops_forever :
    ∀ (fuel : Nat) (store : List ClassSession),
      generate_recurrences ⟨1, some 1, none, 0, 60, 20, 0, true, "", true, 0, some 21, []⟩
        store 12 false fuel = none := by
  intro fuel store
  unfold generate_recurrences
  rw [if_neg (by decide), if_neg (by decide)]
  rw [genLoop_zero_interval_stuck _ _ _ _ _ rfl fuel _ _ _ _ (by decide)]

/-- C7: both recurrence generators preserve the seed duration exactly.  In
the horizon-bounded per-seed variant and in the fixed-occurrence-count
batch variant alike, every row of the final table is either a pre-existing
row or has `end - start` equal to the `end - start` of (one of) the
seed(s) it was generated from. -/
theorem C7_duration_preserved :
    (∀ (seed : ClassSession) (store : List ClassSession) (dw : Nat) (dr : Bool)
        (fuel : Nat) (r : GenOutcome) (st : List ClassSession),
        generate_recurrences seed store dw dr fuel = some (r, st) →
        ∀ x ∈ st, x ∈ store ∨
          x.end_datetime - x.start_datetime = seed.end_datetime - seed.start_datetime)
    ∧ (∀ (occurrences interval : Nat) (skipSet : List Int) (seeds : List ClassSession)
        (store : List ClassSession) (C S : Nat) (st : List ClassSession),
        generate_repeats occurrences interval skipSet seeds 0 0 store = (C, S, st) →
        ∀ x ∈ st, x ∈ store ∨ ∃ seed ∈ seeds,
          x.end_datetime - x.start_datetime = seed.end_datetime - seed.start_datetime) := by
  constructor
  · intro seed store dw dr fuel r st h x hx
    unfold generate_recurrences at h
    by_cases hen : (!seed.recurrence_enabled) = true
    · rw [if_pos hen] at h
      obtain ⟨-, rfl⟩ : GenOutcome.mk 0 0 "disabled" = r ∧ store = st := by
        simpa using h
      exact Or.inl hx
    · rw [if_neg hen] at h
      by_cases hrange : resolvedEnd seed dw < dateOf seed.start_datetime
      · rw [if_pos hrange] at h
        obtain ⟨-, rfl⟩ : GenOutcome.mk 0 0 "empty-range" = r ∧ store = st := by
          simpa using h
        exact Or.inl hx
      · rw [if_neg hrange] at h
        rcases hb : genLoop seed (resolvedEnd seed dw)
            (seed.end_datetime - seed.start_datetime) (skipSetOf seed) dr fuel
            seed.start_datetime 0 0 store with _ | ⟨C, S, st2⟩
        · rw [hb] at h
          simp at h
        · rw [hb] at h
          obtain ⟨-, rfl⟩ : GenOutcome.mk C S "ok" = r ∧ st2 = st := by
            simpa using h
          exact genLoop_duration seed _ _ dr fuel _ _ _ _ _ _ _ hb x hx
  · intro occurrences interval skipSet seeds store C S st h x hx
    exact generate_repeats_duration occurrences interval skipSet seeds 0 0 store C S st h x hx

/-- Witness for C7 at the worked example (per-seed variant) and at a
one-seed batch run with two occurrences. -/
theorem C7_duration_preserved_witness :
    (mkOccurrence seedC2 20160 20220 ∈ ([seedC2] : List ClassSession) ∨
      (mkOccurrence seedC2 20160 20220).end_datetime -
          (mkOccurrence seedC2 20160 20220).start_datetime =
        seedC2.end_datetime - seedC2.start_datetime) ∧
    (mkOccurrence seedC2 10080 10140 ∈ ([seedC2] : List ClassSession) ∨
      ∃ seed ∈ [seedC2],
        (mkOccurrence seedC2 10080 10140).end_datetime -
            (mkOccurrence seedC2 10080 10140).start_datetime =
          seed.end_datetime - seed.start_datetime) :=
  ⟨C7_duration_preserved.1 seedC2 [seedC2] 12 false 10 ⟨2, 1, "ok"⟩
      [seedC2, mkOccurrence seedC2 20160 20220, mkOccurrence seedC2 30240 30300]
      (by decide) (mkOccurrence seedC2 20160 20220) (by decide),
    C7_duration_preserved.2 2 1 [] [seedC2] [seedC2] 2 0
      [seedC2, mkOccurrence seedC2 10080 10140, mkOccurrence seedC2 20160 20220]
      (by decide) (mkOccurrence seedC2 10080 10140) (by decide)⟩

/-- C8: the request-validation boundary rejects every booking or
event-registration attempt on a slot whose start timestamp is before the
current time, so such a slot never accepts a new reservation. -/
theorem C8_past_slot_rejected :
    (∀ (s : ClassSession) (bookings : List Booking) (now : Int) (q : Option Int),
        s.start_datetime < now →
        ∃ msg, bookingCreateFormClean (some s) bookings now q = .rejected msg)
    ∧ (∀ (e : Event) (regs : List EventRegistration) (now : Int) (q : Option Int) (t : Int),
        e.start_datetime = some t → t < now →
        ∃ msg, eventRegistrationFormClean (some e) regs now q = .rejected msg) := by
  constructor
  · intro s bookings now q hpast
    refine ⟨"This class has already started or finished.", ?_⟩
    simp [bookingCreateFormClean, hpast]
  · intro e regs now q t hstart hpast
    by_cases hpub : e.is_public = true
    · refine ⟨"This event has already started or finished.", ?_⟩
      simp [eventRegistrationFormClean, hpub, hstart, hpast]
    · refine ⟨"Invalid event.", ?_⟩
      simp [eventRegistrationFormClean, hpub]

/-- Witness for C8: a session starting at minute 0 and a public event
starting at minute 0 are both rejected at now = 100. -/
theorem C8_past_slot_rejected_witness :
    (∃ msg, bookingCreateFormClean
        (some ⟨1, none, none, 0, 60, 20, 0, true, "", false, 1, none, []⟩)
        [] 100 (some 1) = .rejected msg) ∧
    (∃ msg, eventRegistrationFormClean
        (some ⟨EventType.PUBLIC, some 0, some 60, 10, true⟩) [] 100 (some 1) =
      .rejected msg) :=
  ⟨C8_past_slot_rejected.1 ⟨1, none, none, 0, 60, 20, 0, true, "", false, 1, none, []⟩
      [] 100 (some 1) (by decide),
    C8_past_slot_rejected.2 ⟨EventType.PUBLIC, some 0, some 60, 10, true⟩
      [] 100 (some 1) 0 rfl (by decide)⟩

/-- C9: a public event with `capacity <= 0` is unlimited — `can_accept`
returns true for every positive quantity, whatever registrations exist. -/
theorem C9_unlimited_event_admits (e : Event) (rs : List EventRegistration) (q : Int)
    (hpub : e.event_type = EventType.PUBLIC) (hcap : e.capacity ≤ 0) (hq : 1 ≤ q) :
    e.can_accept rs q = true := by
  simp [Event.can_accept, hcap]

/-- Witness for C9: a full public event (capacity 0, 1000 confirmed
quantities) still admits quantity 5. -/
theorem C9_witness :
    Event.can_accept ⟨EventType.PUBLIC, some 0, some 60, 0, true⟩
      [⟨1000, Status.CONFIRMED⟩] 5 = true :=
  C9_unlimited_event_admits ⟨EventType.PUBLIC, some 0, some 60, 0, true⟩
    [⟨1000, Status.CONFIRMED⟩] 5 rfl (by decide) (by decide)

/-- C10: a `ClassSession` with capacity 0 is never unlimited: its
`spots_left` is 0 and `can_accept q` is false for every `q >= 1`,
whatever bookings exist. -/
theorem C10_zero_capacity_session_rejects (s : ClassSession) (bs : List Booking)
    (hcap : s.capacity = 0) :
    s.spots_left bs = 0 ∧ ∀ q : Int, 1 ≤ q → s.can_accept bs q = false := by
  have h0 : s.spots_left bs = 0 := by
    simp only [ClassSession.spots_left, hcap]
    omega
  refine ⟨h0, fun q hq => ?_⟩
  simp only [ClassSession.can_accept, h0]
  simp only [Bool.and_eq_false_iff, decide_eq_false_iff_not, not_lt, not_le]
  omega

/-- Witness for C10 at a concrete capacity-0 session. -/
theorem C10_witness :
    ClassSession.spots_left ⟨1, none, none, 0, 60, 0, 0, true, "", false, 1, none, []⟩ [] = 0 ∧
    ClassSession.can_accept ⟨1, none, none, 0, 60, 0, 0, true, "", false, 1, none, []⟩ [] 1 =
      false := by
  have h := C10_zero_capacity_session_rejects
    ⟨1, none, none, 0, 60, 0, 0, true, "", false, 1, none, []⟩ [] rfl
  exact ⟨h.1, h.2 1 (by decide)⟩

end Slayground
